import Mathlib

/-!
# ConvertEase WAV encoder — verification development

Shallow embedding of the audio-download path of `src/src/App.tsx`
(`handleDownload`, audio branch, lines 166–228), which re-serialises a
decoded PCM buffer into a 16-bit PCM RIFF/WAVE byte stream, and of the
same pass in the older co-located revision of the file (lines 576–638).

Samples are JavaScript numbers read from a `Float32Array`.  Every value
the development manipulates (0, ±0.5, ±1, products with 32767) is exactly
representable in binary32 and its double-precision product with 32767 is
exact, so finite samples are embedded as exact rationals; the non-finite
IEEE values get their own constructors so that the clamp and the
`setInt16` conversion can be modelled faithfully.
-/

/-- A JavaScript number as it can occur as an audio sample: an exact
finite value, or one of the three non-finite IEEE values. -/
inductive Sample where
  | nan : Sample
  | posInf : Sample
  | negInf : Sample
  | fin : ℚ → Sample
deriving DecidableEq

/-- `Math.min(1, s)`: NaN propagates, `+∞` gives 1, `-∞` gives `-∞`. -/
def jsMinOne : Sample → Sample
  | .nan => .nan
  | .posInf => .fin 1
  | .negInf => .negInf
  | .fin q => .fin (min 1 q)

/-- `Math.max(-1, s)`: NaN propagates, `-∞` gives -1, `+∞` gives `+∞`. -/
def jsMaxNegOne : Sample → Sample
  | .nan => .nan
  | .posInf => .posInf
  | .negInf => .fin (-1)
  | .fin q => .fin (max (-1) q)

/-- `Math.max(-1, Math.min(1, sample))` — the clamp on line 208. -/
def clampSample (s : Sample) : Sample := jsMaxNegOne (jsMinOne s)

/-- Multiplication by `0x7FFF` on line 208.  NaN and infinities propagate;
the finite products occurring here are exact in double precision. -/
def scale7FFF : Sample → Sample
  | .nan => .nan
  | .posInf => .posInf
  | .negInf => .negInf
  | .fin q => .fin (q * 32767)

/-- Truncation toward zero of a rational (the `truncate` step of the
ECMAScript ToInt16 conversion): floor for nonnegative arguments, ceiling
for negative ones. -/
def ratTrunc (q : ℚ) : ℤ := if 0 ≤ q then ⌊q⌋ else ⌈q⌉

/-- ECMAScript ToInt16, applied by `DataView.setInt16` to its argument:
NaN and infinities become 0; otherwise truncate toward zero, reduce
modulo 2^16, and reinterpret as a signed 16-bit value. -/
def jsToInt16 : Sample → ℤ
  | .nan => 0
  | .posInf => 0
  | .negInf => 0
  | .fin q =>
      let m := (ratTrunc q) % 65536
      if m < 32768 then m else m - 65536

/-- The full per-sample pipeline of lines 206–209: clamp, scale by
`0x7FFF`, convert to a signed 16-bit integer. -/
def sampleToInt16 (s : Sample) : ℤ := jsToInt16 (scale7FFF (clampSample s))

/-- Little-endian bytes of `setUint16` (value reduced modulo 2^16). -/
def u16le (n : ℕ) : List ℕ := [n % 256, n / 256 % 256]

/-- Little-endian bytes of `setUint32` (value reduced modulo 2^32). -/
def u32le (n : ℕ) : List ℕ :=
  [n % 256, n / 256 % 256, n / 65536 % 256, n / 16777216 % 256]

/-- Little-endian bytes of `setInt16`: the two bytes of the value taken
modulo 2^16 (two-complement storage). -/
def i16le (z : ℤ) : List ℕ := u16le (z % 65536).toNat

/-- The `writeString` helper of lines 177–181: one byte per character,
each the character code. -/
def writeString (s : String) : List ℕ := s.data.map Char.toNat

/-- The rendered audio buffer as the encoder reads it: channel count,
sample rate, per-channel length, and the per-channel sample accessor
(`getChannelData(channel)[i]` becomes `channelData channel i`). -/
structure DecodedAudio where
  numberOfChannels : ℕ
  sampleRate : ℕ
  samplesPerChannel : ℕ
  channelData : ℕ → ℕ → Sample

/-- `totalSamples = samplesPerChannel * numberOfChannels` (line 169). -/
def totalSamples (a : DecodedAudio) : ℕ :=
  a.samplesPerChannel * a.numberOfChannels

/-- `bufferSize = 44 + totalSamples * 2` (line 172). -/
def bufferSize (a : DecodedAudio) : ℕ := 44 + totalSamples a * 2

/-- The 44-byte WAV header written on lines 184–200, in offset order:
RIFF/ChunkSize/WAVE, fmt chunk, data chunk id and Subchunk2Size. -/
def wavHeader (a : DecodedAudio) : List ℕ :=
  writeString "RIFF" ++ u32le (bufferSize a - 8) ++ writeString "WAVE" ++
  writeString "fmt " ++ u32le 16 ++ u16le 1 ++ u16le a.numberOfChannels ++
  u32le a.sampleRate ++ u32le (a.sampleRate * a.numberOfChannels * 2) ++
  u16le (a.numberOfChannels * 2) ++ u16le 16 ++
  writeString "data" ++ u32le (totalSamples a * 2)

/-- The bytes written for frame `i` by the inner loop of lines 205–211:
for each channel in ascending order, the quantised sample, little-endian. -/
def frameBytes (a : DecodedAudio) (i : ℕ) : List ℕ :=
  ((List.range a.numberOfChannels).map
    (fun channel => i16le (sampleToInt16 (a.channelData channel i)))).flatten

/-- The data section written by the nested loops of lines 203–212:
frames in ascending sample-index order. -/
def dataBytes (a : DecodedAudio) : List ℕ :=
  ((List.range a.samplesPerChannel).map (fun i => frameBytes a i)).flatten

/-- The complete byte stream the audio branch of `handleDownload` puts in
the output buffer: header at offsets 0–43, data from offset 44. -/
def encodeWav (a : DecodedAudio) : List ℕ := wavHeader a ++ dataBytes a

/-- The selectable audio target formats (`type AudioFormat`, line 9). -/
inductive AudioFormat where
  | mp3 : AudioFormat
  | wav : AudioFormat
  | ogg : AudioFormat
  | m4a : AudioFormat
deriving DecidableEq

/-- The lowercase name of a target format, as it appears in the MIME type
and the download file name. -/
def AudioFormat.str : AudioFormat → String
  | .mp3 => "mp3"
  | .wav => "wav"
  | .ogg => "ogg"
  | .m4a => "m4a"

/-- What the audio branch hands to the delivery sink (lines 215–220):
the encoded bytes, the MIME type label, and the download file name. -/
structure DownloadArtifact where
  bytes : List ℕ
  mime : String
  filename : String
deriving DecidableEq

/-- Lines 215–220: the blob holds the WAV bytes with MIME type
`audio/<targetFormat>`, and the link download name is
`<originalFileName> - ConvertEase.<targetFormat>`. -/
def audioDownload (a : DecodedAudio) (targetFormat : AudioFormat)
    (originalFileName : String) : DownloadArtifact :=
  { bytes := encodeWav a
    mime := "audio/" ++ targetFormat.str
    filename := originalFileName ++ " - ConvertEase." ++ targetFormat.str }

/-! ## Older revision

The same file carries an older revision of the component whose
`handleDownload` (lines 546–646) contains its own copy of the WAV
pass (lines 576–621).  It is transcribed separately below so that the
two passes can be compared; the models of the platform builtins
(`Math.min`, `Math.max`, the `DataView` conversions) are shared, since
both revisions call the same builtins. -/

/-- The `writeString` helper of the older revision (lines 586–590). -/
def writeStringOld (s : String) : List ℕ := s.data.map Char.toNat

/-- `totalSamples` in the older revision (line 578). -/
def totalSamplesOld (a : DecodedAudio) : ℕ :=
  a.samplesPerChannel * a.numberOfChannels

/-- `bufferSize` in the older revision (line 581). -/
def bufferSizeOld (a : DecodedAudio) : ℕ := 44 + totalSamplesOld a * 2

/-- The header written by the older revision (lines 593–609). -/
def wavHeaderOld (a : DecodedAudio) : List ℕ :=
  writeStringOld "RIFF" ++ u32le (bufferSizeOld a - 8) ++ writeStringOld "WAVE" ++
  writeStringOld "fmt " ++ u32le 16 ++ u16le 1 ++ u16le a.numberOfChannels ++
  u32le a.sampleRate ++ u32le (a.sampleRate * a.numberOfChannels * 2) ++
  u16le (a.numberOfChannels * 2) ++ u16le 16 ++
  writeStringOld "data" ++ u32le (totalSamplesOld a * 2)

/-- The per-sample conversion of the older revision (lines 617–618). -/
def int16SampleOld (s : Sample) : ℤ := jsToInt16 (scale7FFF (jsMaxNegOne (jsMinOne s)))

/-- One frame written by the inner loop of the older revision
(lines 614–620). -/
def frameBytesOld (a : DecodedAudio) (i : ℕ) : List ℕ :=
  ((List.range a.numberOfChannels).map
    (fun channel => i16le (int16SampleOld (a.channelData channel i)))).flatten

/-- The data section written by the older revision (lines 612–621). -/
def dataBytesOld (a : DecodedAudio) : List ℕ :=
  ((List.range a.samplesPerChannel).map (fun i => frameBytesOld a i)).flatten

/-- The complete byte stream produced by the older revision. -/
def encodeWavOld (a : DecodedAudio) : List ℕ := wavHeaderOld a ++ dataBytesOld a

/-! ## Concrete fixtures -/

/-- The round-trip fixture of the spec: mono, 44100 Hz, four samples
0, 0.5, -0.5, 1. -/
def rtAudio : DecodedAudio :=
  { numberOfChannels := 1
    sampleRate := 44100
    samplesPerChannel := 4
    channelData := fun _ i =>
      if i = 0 then .fin 0
      else if i = 1 then .fin (1/2)
      else if i = 2 then .fin (-(1/2))
      else .fin 1 }

/-- The stereo fixture of the spec: two channels, two frames, channel 0
holding 1 and -1, channel 1 silent. -/
def stereoAudio : DecodedAudio :=
  { numberOfChannels := 2
    sampleRate := 44100
    samplesPerChannel := 2
    channelData := fun c i =>
      if c = 0 then (if i = 0 then .fin 1 else .fin (-1)) else .fin 0 }

/-- A buffer that violates the input contract: its single sample is NaN. -/
def nanAudio : DecodedAudio :=
  { numberOfChannels := 1
    sampleRate := 8000
    samplesPerChannel := 1
    channelData := fun _ _ => Sample.nan }

/-- A six-channel buffer (empty data, so header facts stay concrete). -/
def sixChanAudio : DecodedAudio :=
  { numberOfChannels := 6
    sampleRate := 48000
    samplesPerChannel := 0
    channelData := fun _ _ => Sample.fin 0 }

/-- An empty two-channel buffer. -/
def emptyAudio : DecodedAudio :=
  { numberOfChannels := 2
    sampleRate := 22050
    samplesPerChannel := 0
    channelData := fun _ _ => Sample.fin 0 }

/-- Quantisation of a sample with value 0. -/
lemma sampleToInt16_zero : sampleToInt16 (Sample.fin 0) = 0 := by
  simp only [sampleToInt16, clampSample, jsMinOne, jsMaxNegOne, scale7FFF, jsToInt16, ratTrunc]
  norm_num [min_def, max_def]

/-- Quantisation of a sample with value 1/2. -/
lemma sampleToInt16_half : sampleToInt16 (Sample.fin (1/2)) = 16383 := by
  simp only [sampleToInt16, clampSample, jsMinOne, jsMaxNegOne, scale7FFF, jsToInt16, ratTrunc]
  norm_num [min_def, max_def]

/-- Quantisation of a sample with value -1/2: truncation toward zero
gives -16383, not -16384. -/
lemma sampleToInt16_negHalf : sampleToInt16 (Sample.fin (-(1/2))) = -16383 := by
  have hclamp : clampSample (Sample.fin (-(1/2))) = Sample.fin (-(1/2)) := by
    simp only [clampSample, jsMinOne, jsMaxNegOne]
    norm_num [min_def, max_def]
  have hscale : scale7FFF (Sample.fin (-(1/2))) = Sample.fin (-(32767/2)) := by
    simp only [scale7FFF]
    norm_num
  have ht : ratTrunc (-(32767/2) : ℚ) = -16383 := by
    rw [ratTrunc, if_neg (by norm_num), Int.ceil_neg]
    norm_num
  simp only [sampleToInt16, hclamp, hscale, jsToInt16, ht]
  decide

/-- Quantisation of a sample with value 1. -/
lemma sampleToInt16_one : sampleToInt16 (Sample.fin 1) = 32767 := by
  simp only [sampleToInt16, clampSample, jsMinOne, jsMaxNegOne, scale7FFF, jsToInt16, ratTrunc]
  norm_num [min_def, max_def]

/-- Quantisation of a sample with value -1. -/
lemma sampleToInt16_negOne : sampleToInt16 (Sample.fin (-1)) = -32767 := by
  have hclamp : clampSample (Sample.fin (-1)) = Sample.fin (-1) := by
    simp only [clampSample, jsMinOne, jsMaxNegOne]
    norm_num [min_def, max_def]
  have hscale : scale7FFF (Sample.fin (-1)) = Sample.fin (-32767) := by
    simp only [scale7FFF]
    norm_num
  have ht' : ratTrunc (-32767 : ℚ) = -32767 := by
    rw [ratTrunc, if_neg (by norm_num),
      show ((-32767 : ℚ)) = ((-32767 : ℤ) : ℚ) by norm_num, Int.ceil_intCast]
  simp only [sampleToInt16, hclamp, hscale, jsToInt16, ht']
  decide

/-- A NaN sample passes the clamp unchanged and is converted to 0. -/
lemma sampleToInt16_nan : sampleToInt16 Sample.nan = 0 := rfl

/-- Two bytes per encoded sample. -/
lemma length_i16le (z : ℤ) : (i16le z).length = 2 := rfl

/-- The header is exactly 44 bytes. -/
lemma length_wavHeader (a : DecodedAudio) : (wavHeader a).length = 44 := rfl

/-- One frame holds `numberOfChannels * 2` bytes. -/
lemma length_frameBytes (a : DecodedAudio) (i : ℕ) :
    (frameBytes a i).length = a.numberOfChannels * 2 := by
  simp [frameBytes, List.length_flatten, List.map_map, Function.comp_def, length_i16le,
    List.map_const', List.sum_replicate, smul_eq_mul, Nat.mul_comm]

/-- The data section holds `samplesPerChannel * (numberOfChannels * 2)` bytes. -/
lemma length_dataBytes (a : DecodedAudio) :
    (dataBytes a).length = a.samplesPerChannel * (a.numberOfChannels * 2) := by
  simp [dataBytes, List.length_flatten, List.map_map, Function.comp_def, length_frameBytes,
    List.map_const', List.sum_replicate, smul_eq_mul, Nat.mul_comm]

/-- Total output length: 44 header bytes plus two bytes per sample. -/
lemma length_encodeWav (a : DecodedAudio) :
    (encodeWav a).length = 44 + a.samplesPerChannel * a.numberOfChannels * 2 := by
  simp [encodeWav, length_wavHeader, length_dataBytes, Nat.mul_assoc]

/-- Dropping `i` whole blocks from the concatenation of equal-length
blocks lands at the start of block `i`. -/
lemma flatten_drop_block {α : Type} (m : ℕ) (L : List (List α)) :
    ∀ (i : ℕ), (∀ l ∈ L, l.length = m) → ∀ (h : i < L.length),
      L.flatten.drop (i * m) = L[i] ++ (L.drop (i + 1)).flatten := by
  induction L with
  | nil => intro i _ h; simp at h
  | cons hd tl ih =>
    intro i hlen h
    cases i with
    | zero => simp
    | succ j =>
      have hhd : hd.length = m := hlen hd (by simp)
      have hj : j < tl.length := by simpa using h
      calc ((hd :: tl).flatten).drop ((j + 1) * m)
          = (hd ++ tl.flatten).drop (m + j * m) := by
            rw [List.flatten_cons, Nat.succ_mul, Nat.add_comm (j * m) m]
        _ = ((hd ++ tl.flatten).drop m).drop (j * m) := (List.drop_drop _ _ _).symm
        _ = tl.flatten.drop (j * m) := by rw [← hhd, List.drop_left]
        _ = tl[j] ++ (tl.drop (j + 1)).flatten :=
            ih j (fun l hl => hlen l (List.mem_cons_of_mem _ hl)) hj
        _ = (hd :: tl)[j + 1] ++ ((hd :: tl).drop (j + 2)).flatten := by simp

/-- Taking two bytes at the start of an encoded sample recovers it. -/
lemma take_two_i16le (z : ℤ) (l : List ℕ) : (i16le z ++ l).take 2 = i16le z := by
  simp [i16le, u16le]

/-- Where each sample lands in the output: the two bytes at offset
`44 + (i * numberOfChannels + c) * 2` are the quantised sample of
channel `c` at index `i`. -/
lemma encodeWav_sample_bytes (a : DecodedAudio) (i c : ℕ)
    (hi : i < a.samplesPerChannel) (hc : c < a.numberOfChannels) :
    ((encodeWav a).drop (44 + (i * a.numberOfChannels + c) * 2)).take 2
      = i16le (sampleToInt16 (a.channelData c i)) := by
  have hdata : (encodeWav a).drop (44 + (i * a.numberOfChannels + c) * 2)
      = (dataBytes a).drop ((i * a.numberOfChannels + c) * 2) := by
    rw [encodeWav, ← List.drop_drop, List.drop_left' (length_wavHeader a)]
  have hiL : i < ((List.range a.samplesPerChannel).map (fun j => frameBytes a j)).length := by
    simpa using hi
  have hframe : (dataBytes a).drop (i * (a.numberOfChannels * 2))
      = frameBytes a i
        ++ (((List.range a.samplesPerChannel).map (fun j => frameBytes a j)).drop (i + 1)).flatten := by
    have := flatten_drop_block (a.numberOfChannels * 2)
      ((List.range a.samplesPerChannel).map (fun j => frameBytes a j)) i
      (by
        intro l hl
        obtain ⟨j, _, rfl⟩ := List.mem_map.mp hl
        exact length_frameBytes a j) hiL
    simpa [dataBytes] using this
  have hcL : c < ((List.range a.numberOfChannels).map
      (fun channel => i16le (sampleToInt16 (a.channelData channel i)))).length := by
    simpa using hc
  have hchan : (frameBytes a i).drop (c * 2)
      = i16le (sampleToInt16 (a.channelData c i))
        ++ (((List.range a.numberOfChannels).map
            (fun channel => i16le (sampleToInt16 (a.channelData channel i)))).drop (c + 1)).flatten := by
    have := flatten_drop_block 2
      ((List.range a.numberOfChannels).map
        (fun channel => i16le (sampleToInt16 (a.channelData channel i)))) c
      (by
        intro l hl
        obtain ⟨j, _, rfl⟩ := List.mem_map.mp hl
        exact length_i16le _) hcL
    simpa [frameBytes] using this
  rw [hdata, show (i * a.numberOfChannels + c) * 2
      = i * (a.numberOfChannels * 2) + c * 2 by ring, ← List.drop_drop, hframe,
    List.drop_append_of_le_length
      (by rw [length_frameBytes]; omega),
    hchan, List.append_assoc, take_two_i16le]

/-- The data section of the round-trip fixture, sample by sample. -/
lemma dataBytes_rtAudio :
    dataBytes rtAudio = i16le 0 ++ (i16le 16383 ++ (i16le (-16383) ++ i16le 32767)) := by
  rw [dataBytes, show List.range rtAudio.samplesPerChannel = [0, 1, 2, 3] from rfl]
  simp only [List.map_cons, List.map_nil, frameBytes,
    show List.range rtAudio.numberOfChannels = [0] from rfl]
  simp only [show ∀ i, rtAudio.channelData 0 i = rtAudio.channelData 0 i from fun _ => rfl,
    show rtAudio.channelData 0 0 = Sample.fin 0 from rfl,
    show rtAudio.channelData 0 1 = Sample.fin (1/2) from rfl,
    show rtAudio.channelData 0 2 = Sample.fin (-(1/2)) from rfl,
    show rtAudio.channelData 0 3 = Sample.fin 1 from rfl,
    sampleToInt16_zero, sampleToInt16_half, sampleToInt16_negHalf, sampleToInt16_one]
  simp

/-- The start of the data section is what remains after the header. -/
lemma encodeWav_drop_header (a : DecodedAudio) : (encodeWav a).drop 44 = dataBytes a := by
  rw [encodeWav, List.drop_left' (length_wavHeader a)]

/-- Bytes 4–7: the ChunkSize field. -/
lemma slice_chunkSize (a : DecodedAudio) :
    ((encodeWav a).drop 4).take 4 = u32le (bufferSize a - 8) := rfl

/-- Bytes 20–21: the AudioFormat field. -/
lemma slice_audioFormat (a : DecodedAudio) :
    ((encodeWav a).drop 20).take 2 = u16le 1 := rfl

/-- Bytes 22–23: the NumChannels field. -/
lemma slice_numChannels (a : DecodedAudio) :
    ((encodeWav a).drop 22).take 2 = u16le a.numberOfChannels := rfl

/-- Bytes 28–31: the ByteRate field. -/
lemma slice_byteRate (a : DecodedAudio) :
    ((encodeWav a).drop 28).take 4 = u32le (a.sampleRate * a.numberOfChannels * 2) := rfl

/-- Bytes 32–33: the BlockAlign field. -/
lemma slice_blockAlign (a : DecodedAudio) :
    ((encodeWav a).drop 32).take 2 = u16le (a.numberOfChannels * 2) := rfl

/-- Bytes 34–35: the BitsPerSample field. -/
lemma slice_bitsPerSample (a : DecodedAudio) :
    ((encodeWav a).drop 34).take 2 = u16le 16 := rfl

/-- Bytes 40–43: the Subchunk2Size field. -/
lemma slice_subchunk2Size (a : DecodedAudio) :
    ((encodeWav a).drop 40).take 4 = u32le (totalSamples a * 2) := rfl

/-- C1: for every valid DecodedAudio the output length is
`44 + samplesPerChannel * numberOfChannels * 2` and the header fields
satisfy ChunkSize = totalByteLength - 8, Subchunk2Size =
samplesPerChannel * numberOfChannels * 2, ByteRate =
sampleRate * numberOfChannels * 2, BlockAlign = numberOfChannels * 2,
BitsPerSample = 16, AudioFormat = 1 and NumChannels = numberOfChannels,
all little-endian, with no special-casing of any channel count. -/
theorem encodeWav_header_invariant (a : DecodedAudio)
    (hch : 1 ≤ a.numberOfChannels) (hsr : 0 < a.sampleRate) :
    (encodeWav a).length = 44 + a.samplesPerChannel * a.numberOfChannels * 2 ∧
    ((encodeWav a).drop 4).take 4 = u32le ((encodeWav a).length - 8) ∧
    ((encodeWav a).drop 40).take 4 = u32le (a.samplesPerChannel * a.numberOfChannels * 2) ∧
    ((encodeWav a).drop 28).take 4 = u32le (a.sampleRate * a.numberOfChannels * 2) ∧
    ((encodeWav a).drop 32).take 2 = u16le (a.numberOfChannels * 2) ∧
    ((encodeWav a).drop 34).take 2 = u16le 16 ∧
    ((encodeWav a).drop 20).take 2 = u16le 1 ∧
    ((encodeWav a).drop 22).take 2 = u16le a.numberOfChannels := by
  refine ⟨length_encodeWav a, ?_, ?_, slice_byteRate a, slice_blockAlign a,
    slice_bitsPerSample a, slice_audioFormat a, slice_numChannels a⟩
  · rw [length_encodeWav,
      show 44 + a.samplesPerChannel * a.numberOfChannels * 2 - 8 = bufferSize a - 8 by
        rw [bufferSize, totalSamples, Nat.mul_assoc]]
    exact slice_chunkSize a
  · rw [show a.samplesPerChannel * a.numberOfChannels * 2 = totalSamples a * 2 by
      rw [totalSamples]]
    exact slice_subchunk2Size a

/-- C1 witness: the header invariant at a six-channel buffer, where
NumChannels = 6, BlockAlign = 12 and ByteRate = 48000 * 12. -/
theorem encodeWav_header_invariant_witness :
    (encodeWav sixChanAudio).length = 44 + 0 * 6 * 2 ∧
    ((encodeWav sixChanAudio).drop 4).take 4 = u32le ((encodeWav sixChanAudio).length - 8) ∧
    ((encodeWav sixChanAudio).drop 40).take 4 = u32le (0 * 6 * 2) ∧
    ((encodeWav sixChanAudio).drop 28).take 4 = u32le (48000 * 6 * 2) ∧
    ((encodeWav sixChanAudio).drop 32).take 2 = u16le (6 * 2) ∧
    ((encodeWav sixChanAudio).drop 34).take 2 = u16le 16 ∧
    ((encodeWav sixChanAudio).drop 20).take 2 = u16le 1 ∧
    ((encodeWav sixChanAudio).drop 22).take 2 = u16le 6 :=
  encodeWav_header_invariant sixChanAudio (by decide) (by decide)

/-- C2: for every DecodedAudio, sample index `i` and channel `c` in
range, the two output bytes at offset `44 + (i * numberOfChannels + c) * 2`
are the sample of channel `c` at index `i`, clamped to [-1, 1], scaled by
32767, converted by truncation toward zero, stored little-endian: the
data section is interleaved frame-major, channel-minor. -/
theorem encodeWav_interleaved_quantised (a : DecodedAudio) (i c : ℕ)
    (hi : i < a.samplesPerChannel) (hc : c < a.numberOfChannels) :
    ((encodeWav a).drop (44 + (i * a.numberOfChannels + c) * 2)).take 2
      = i16le (jsToInt16 (scale7FFF (clampSample (a.channelData c i)))) :=
  encodeWav_sample_bytes a i c hi hc

/-- C2 witness: second frame, first channel of the stereo fixture. -/
theorem encodeWav_interleaved_quantised_witness :
    ((encodeWav stereoAudio).drop (44 + (1 * stereoAudio.numberOfChannels + 0) * 2)).take 2
      = i16le (jsToInt16 (scale7FFF (clampSample (stereoAudio.channelData 0 1)))) :=
  encodeWav_interleaved_quantised stereoAudio 1 0 (by decide) (by decide)

/-- C3 counterexample: on the round-trip fixture the data section does
NOT hold the samples 0, 16383, -16384, 32767 — the third sample is
-16383 (truncation toward zero of -16383.5), not -16384. -/
theorem encodeWav_roundTrip_claim_false :
    ¬ ((encodeWav rtAudio).drop 44
        = i16le 0 ++ i16le 16383 ++ i16le (-16384) ++ i16le 32767) := by
  rw [encodeWav_drop_header, dataBytes_rtAudio]
  decide

/-- C3 amended: the round-trip fixture encodes to 52 bytes whose data
section holds the samples 0, 16383, -16383, 32767. -/
theorem encodeWav_roundTrip_amended :
    (encodeWav rtAudio).length = 52 ∧
    (encodeWav rtAudio).drop 44
      = i16le 0 ++ i16le 16383 ++ i16le (-16383) ++ i16le 32767 := by
  constructor
  · rw [length_encodeWav]
    rfl
  · rw [encodeWav_drop_header, dataBytes_rtAudio]
    decide

/-- C4: a sample that is exactly 1.0 is encoded as 32767 and a sample
that is exactly -1.0 as -32767 (not -32768): the same 0x7FFF scale
constant serves both signs. -/
theorem encodeWav_boundary_samples (a : DecodedAudio) (i c : ℕ)
    (hi : i < a.samplesPerChannel) (hc : c < a.numberOfChannels) :
    (a.channelData c i = Sample.fin 1 →
      ((encodeWav a).drop (44 + (i * a.numberOfChannels + c) * 2)).take 2 = i16le 32767) ∧
    (a.channelData c i = Sample.fin (-1) →
      ((encodeWav a).drop (44 + (i * a.numberOfChannels + c) * 2)).take 2 = i16le (-32767)) := by
  constructor
  · intro h
    rw [encodeWav_sample_bytes a i c hi hc, h, sampleToInt16_one]
  · intro h
    rw [encodeWav_sample_bytes a i c hi hc, h, sampleToInt16_negOne]

/-- C4 witness: the 1.0 and -1.0 samples of the stereo fixture encode to
32767 and -32767. -/
theorem encodeWav_boundary_samples_witness :
    ((encodeWav stereoAudio).drop (44 + (0 * stereoAudio.numberOfChannels + 0) * 2)).take 2
      = i16le 32767 ∧
    ((encodeWav stereoAudio).drop (44 + (1 * stereoAudio.numberOfChannels + 0) * 2)).take 2
      = i16le (-32767) :=
  ⟨(encodeWav_boundary_samples stereoAudio 0 0 (by decide) (by decide)).1 rfl,
   (encodeWav_boundary_samples stereoAudio 1 0 (by decide) (by decide)).2 rfl⟩

/-- C5: the encoder does not fail on a NaN sample — it produces the full
46-byte stream and stores 0 at the NaN position, contradicting the
fail-fast requirement. -/
theorem encodeWav_nan_not_failfast :
    (encodeWav nanAudio).length = 46 ∧ (encodeWav nanAudio).drop 44 = i16le 0 := by
  constructor
  · rw [length_encodeWav]
    rfl
  · rw [encodeWav_drop_header, dataBytes,
      show List.range nanAudio.samplesPerChannel = [0] from rfl]
    simp only [List.map_cons, List.map_nil, frameBytes,
      show List.range nanAudio.numberOfChannels = [0] from rfl,
      show nanAudio.channelData 0 0 = Sample.nan from rfl, sampleToInt16_nan]
    simp

/-- C6: with samplesPerChannel = 0 the output is exactly the 44-byte
header, with Subchunk2Size = 0 and ChunkSize = 36, and an empty data
section. -/
theorem encodeWav_empty_audio (a : DecodedAudio)
    (hch : 1 ≤ a.numberOfChannels) (hsr : 0 < a.sampleRate)
    (h0 : a.samplesPerChannel = 0) :
    (encodeWav a).length = 44 ∧
    ((encodeWav a).drop 40).take 4 = u32le 0 ∧
    ((encodeWav a).drop 4).take 4 = u32le 36 ∧
    dataBytes a = [] ∧
    encodeWav a = wavHeader a := by
  have ht : totalSamples a = 0 := by rw [totalSamples, h0, Nat.zero_mul]
  have hdata : dataBytes a = [] := by
    rw [dataBytes, h0]
    simp
  refine ⟨?_, ?_, ?_, hdata, ?_⟩
  · rw [length_encodeWav, h0, Nat.zero_mul]
  · rw [slice_subchunk2Size a, ht]
  · rw [slice_chunkSize a, show bufferSize a - 8 = 36 by rw [bufferSize, ht]]
  · rw [encodeWav, hdata, List.append_nil]

/-- C6 witness: the empty two-channel buffer gives the 44-byte header. -/
theorem encodeWav_empty_audio_witness :
    (encodeWav emptyAudio).length = 44 ∧
    ((encodeWav emptyAudio).drop 40).take 4 = u32le 0 ∧
    ((encodeWav emptyAudio).drop 4).take 4 = u32le 36 ∧
    dataBytes emptyAudio = [] ∧
    encodeWav emptyAudio = wavHeader emptyAudio :=
  encodeWav_empty_audio emptyAudio (by decide) (by decide) rfl

/-- C7: the encoder is deterministic — the output bytes are a pure
function of the DecodedAudio value, so equal inputs give byte-identical
streams. -/
theorem encodeWav_deterministic (a b : DecodedAudio) (h : a = b) :
    encodeWav a = encodeWav b := by rw [h]

/-- C7 witness: two runs on the stereo fixture agree. -/
theorem encodeWav_deterministic_witness :
    encodeWav stereoAudio = encodeWav stereoAudio :=
  encodeWav_deterministic stereoAudio stereoAudio rfl

/-- C8: a NaN sample passes the clamp unchanged, is converted to 0, and
the encoder still produces the complete stream with the two bytes of 0 at
the sample position — it never raises. -/
theorem encodeWav_nan_writes_zero (a : DecodedAudio) (i c : ℕ)
    (hi : i < a.samplesPerChannel) (hc : c < a.numberOfChannels)
    (h : a.channelData c i = Sample.nan) :
    clampSample (a.channelData c i) = Sample.nan ∧
    ((encodeWav a).drop (44 + (i * a.numberOfChannels + c) * 2)).take 2 = i16le 0 ∧
    (encodeWav a).length = 44 + a.samplesPerChannel * a.numberOfChannels * 2 := by
  refine ⟨by rw [h]; rfl, ?_, length_encodeWav a⟩
  rw [encodeWav_sample_bytes a i c hi hc, h, sampleToInt16_nan]

/-- C8 witness: the NaN fixture gets 0 written at its sample position. -/
theorem encodeWav_nan_writes_zero_witness :
    clampSample (nanAudio.channelData 0 0) = Sample.nan ∧
    ((encodeWav nanAudio).drop (44 + (0 * nanAudio.numberOfChannels + 0) * 2)).take 2
      = i16le 0 ∧
    (encodeWav nanAudio).length
      = 44 + nanAudio.samplesPerChannel * nanAudio.numberOfChannels * 2 :=
  encodeWav_nan_writes_zero nanAudio 0 0 (by decide) (by decide) rfl

/-- C9: the emitted bytes do not depend on the selected target format —
only the MIME label `audio/<format>` and the suggested file name do. -/
theorem audioDownload_bytes_format_independent (a : DecodedAudio)
    (f1 f2 : AudioFormat) (nm : String) :
    (audioDownload a f1 nm).bytes = (audioDownload a f2 nm).bytes ∧
    (audioDownload a f1 nm).mime = "audio/" ++ f1.str ∧
    (audioDownload a f1 nm).filename = nm ++ " - ConvertEase." ++ f1.str :=
  ⟨rfl, rfl, rfl⟩

/-- C10: the WAV pass of the current revision and the WAV pass of the
older co-located revision produce identical byte streams on every input. -/
theorem encodeWavOld_eq_encodeWav (a : DecodedAudio) : encodeWavOld a = encodeWav a := rfl
